import Mathlib

/-! Binding_BaseObject_doc.h

Embedding of the header `bindings/Sofa/src/SofaPython3/Sofa/Core/Binding_BaseObject_doc.h`.
The header holds one namespace, `sofapython3::doc::baseObject`, made of twenty
`static auto name = R"( ... )";` declarations.  Each raw string literal is embedded
as the Lean string with the same characters (the line break after `R"(` and the
indentation before `)"` included), and the namespace itself as the association
list of identifier and literal, in declaration order.
-/

namespace sofapython3.doc.baseObject

/-- Raw string literal bound to `Class` in the header. -/
def Class : String :=
"
        Base class for simulation components.

        An object defines a part of the functionnality in the simulation
        (stores state data, specify topology, compute forces, etc).
        Each simulation object is related to a context, which gives access to all available external data.
        It is able to process events, if listening enabled (default is false).
        "

/-- Raw string literal bound to `init` in the header. -/
def init : String :=
"
        Initialization method called at graph creation and modification, during top-down traversal.Initialize data.
        "

/-- Raw string literal bound to `reinit` in the header. -/
def reinit : String :=
"
        Update method called when variables used in precomputation are modified.
        "

/-- Raw string literal bound to `getPathName` in the header. -/
def getPathName : String :=
"
        Return the full path name of this baseObject
        :rtype: string
        "

/-- Raw string literal bound to `getLink` in the header. -/
def getLink : String :=
"
        Return the link of the baseObject
        :param self: the baseObject itself
        :type self: baseObject
        :rtype: string
        "

/-- Raw string literal bound to `getSlaves` in the header. -/
def getSlaves : String :=
"
        Return the slaves of the baseObject.
        :rtype: list
        "

/-- Raw string literal bound to `getContext` in the header. -/
def getContext : String :=
"
        Return the conext of the baseObject.
        :rtype: BaseContext
        "

/-- Raw string literal bound to `getMaster` in the header. -/
def getMaster : String :=
"
        Return the master of the baseObject.
        :rtype: BaseObject
        "

/-- Raw string literal bound to `addSlave` in the header. -/
def addSlave : String :=
"
        Add a slave to the master BaseObject.
        :param slave: the slave to be added.
        :type slave: BaseObject
        "

/-- Raw string literal bound to `storeResetState` in the header. -/
def storeResetState : String :=
"
        Save the initial state for later uses in reset()
        "

/-- Raw string literal bound to `reset` in the header. -/
def reset : String :=
"
        Reset to initial state.
        To save the initial state, see storeResetState().
        "

/-- Raw string literal bound to `getName` in the header. -/
def getName : String :=
"
        Accessor to the baseObject name.
        :rtype: string
        "

/-- Raw string literal bound to `getTarget` in the header. -/
def getTarget : String :=
"
        Return the target (plugin) that contains the current baseObject.
        :rtype: string
        "

/-- Raw string literal bound to `getCategories` in the header. -/
def getCategories : String :=
"
        Return the list of categories the current object belongs to.
        :rtype: list
        "

/-- Raw string literal bound to `setSrc` in the header. -/
def setSrc : String :=
"
        Set a source Object and parses it to collect dependent Data.
        "

/-- Raw string literal bound to `bwdInit` in the header. -/
def bwdInit : String :=
"
        Initialization method called at graph creation and modification, during bottom-up traversal.
        "

/-- Raw string literal bound to `cleanup` in the header. -/
def cleanup : String :=
"
        Called just before deleting this object
        Any object in the tree bellow this object that are to be removed will be removed only after this call,
        so any references this object holds should still be valid.
        "

/-- Raw string literal bound to `computeBBox` in the header. -/
def computeBBox : String :=
"
        Bounding Box computation method.
        Default to empty method.
        "

/-- Raw string literal bound to `getLinkPath` in the header. -/
def getLinkPath : String :=
"
        Return the full path name of this baseObject with an extra prefix '@'
        :rtype: string
        "

/-- Raw string literal bound to `getAsACreateObjectParameter` in the header. -/
def getAsACreateObjectParameter : String :=
"
        Return the full path name of this baseObject with an extra prefix '@'
        :rtype: string
        "

/-- The namespace as a table: every declared identifier with the literal bound
to it, in the order of the declarations in the header. -/
def constants : List (String × String) :=
  [("Class", Class), ("init", init), ("reinit", reinit),
   ("getPathName", getPathName), ("getLink", getLink), ("getSlaves", getSlaves),
   ("getContext", getContext), ("getMaster", getMaster), ("addSlave", addSlave),
   ("storeResetState", storeResetState), ("reset", reset), ("getName", getName),
   ("getTarget", getTarget), ("getCategories", getCategories), ("setSrc", setSrc),
   ("bwdInit", bwdInit), ("cleanup", cleanup), ("computeBBox", computeBBox),
   ("getLinkPath", getLinkPath),
   ("getAsACreateObjectParameter", getAsACreateObjectParameter)]

/-- Resolution of an identifier in the namespace: the literal of the first
declaration with that name, if there is one. -/
def lookup (name : String) : Option String :=
  (constants.find? (fun e => e.1 == name)).map Prod.snd

end sofapython3.doc.baseObject

/-! ## Text predicates used to read the docstrings -/

namespace DocText

/-- Tells whether `p` is an initial segment of `s`. -/
def startsWith : List Char → List Char → Bool
  | [], _ => true
  | _ :: _, [] => false
  | a :: p, b :: s => a == b && startsWith p s

/-- Number of positions of `s` at which the text `p` begins. -/
def occurrences (p : List Char) : List Char → Nat
  | [] => if p.isEmpty then 1 else 0
  | c :: s => (if startsWith p (c :: s) then 1 else 0) + occurrences p s

/-- Tells whether the docstring `doc` contains the text `field`. -/
def containsText (doc field : String) : Bool :=
  decide (0 < occurrences field.data doc.data)

/-- White space in the sense of the C locale: space, tab, line feed, vertical
tab, form feed, carriage return. -/
def isSpace (c : Char) : Bool :=
  c.toNat == 32 || (9 ≤ c.toNat && c.toNat ≤ 13)

/-- Tells whether the docstring has at least one character that is not white space. -/
def hasVisibleChar (doc : String) : Bool :=
  doc.data.any (fun c => !isSpace c)

/-- Removes white space at both ends. -/
def trim (s : List Char) : List Char :=
  ((s.dropWhile isSpace).reverse.dropWhile isSpace).reverse

/-- Values of a field: for every position at which `p` begins, the rest of
that line after `p`, white space at both ends removed. -/
def fieldValuesAux (p : List Char) : List Char → List (List Char)
  | [] => []
  | c :: s =>
    (if startsWith p (c :: s)
      then [trim (((c :: s).drop p.length).takeWhile (fun x => x != '\n'))]
      else []) ++ fieldValuesAux p s

/-- Values given to the field `field` in the docstring `doc`, in order. -/
def fieldValues (doc field : String) : List String :=
  (fieldValuesAux field.data doc.data).map String.mk

end DocText

open sofapython3.doc.baseObject DocText

/-- Identifiers the interface description lists by name. -/
def listedNames : List String :=
  ["init", "reinit", "getSlaves", "addSlave", "reset", "bwdInit", "cleanup",
   "storeResetState", "getPathName", "getContext"]

/-- Return types that occur in the documented signatures. -/
def returnTypes : List String :=
  ["string", "list", "BaseContext", "BaseObject"]

/-! ## Theorems -/

set_option maxRecDepth 100000
set_option maxHeartbeats 2000000

/-- C1: the docstring of getPathName contains the field ":rtype: string", that of
getSlaves ":rtype: list", that of getContext ":rtype: BaseContext", and the
docstring of addSlave contains ":param slave:" and ":type slave: BaseObject" and
has no ":rtype:" field. -/
theorem documented_signatures :
    containsText getPathName ":rtype: string" = true ∧
    containsText getSlaves ":rtype: list" = true ∧
    containsText getContext ":rtype: BaseContext" = true ∧
    containsText addSlave ":param slave:" = true ∧
    containsText addSlave ":type slave: BaseObject" = true ∧
    containsText addSlave ":rtype:" = false := by
  decide

/-- C6: the namespace declares exactly twenty constants, their identifiers are
pairwise distinct, looking a declared identifier up yields the literal of its
own declaration, and each of the ten listed names resolves to a literal that
has a character other than white space. -/
theorem lookup_listed_names :
    constants.length = 20 ∧
    (constants.map Prod.fst).Nodup ∧
    (∀ e ∈ constants, lookup e.1 = some e.2) ∧
    (∀ n ∈ listedNames, ∃ doc, lookup n = some doc ∧ hasVisibleChar doc = true) := by
  refine ⟨by decide, by decide, by decide, ?_⟩
  have h : ∀ n ∈ listedNames, (lookup n).any hasVisibleChar = true := by decide
  intro n hn
  have hn2 := h n hn
  cases hl : lookup n with
  | none => simp [hl] at hn2
  | some doc => exact ⟨doc, rfl, by simpa [hl] using hn2⟩

/-- C7: for every constant of the namespace, the docstring has a ":rtype:" field
exactly when the identifier starts with "get"; and when the field is there it
occurs once and its value is one of string, list, BaseContext, BaseObject. -/
theorem rtype_iff_getter (e : String × String) (he : e ∈ constants) :
    (containsText e.2 ":rtype:" = true ↔ startsWith "get".data e.1.data = true) ∧
    (containsText e.2 ":rtype:" = true →
      occurrences ":rtype:".data e.2.data = 1 ∧
      ∃ v ∈ returnTypes, fieldValues e.2 ":rtype:" = [v]) := by
  revert e
  decide

/-- Instance of the C7 theorem at the declaration of getMaster. -/
theorem rtype_iff_getter_witness :
    ("getMaster", getMaster) ∈ constants ∧
    containsText getMaster ":rtype:" = true ∧
    occurrences ":rtype:".data getMaster.data = 1 ∧
    fieldValues getMaster ":rtype:" = ["BaseObject"] := by
  have hmem : ("getMaster", getMaster) ∈ constants := by decide
  have h := rtype_iff_getter ("getMaster", getMaster) hmem
  exact ⟨hmem, by decide, (h.2 (by decide)).1, by decide⟩

/-! ## Text shared between docstrings

The header holds documentation only; the functions the docstrings describe are
defined elsewhere.  What can be read off the header about two of them is that
they carry the same documentation text. -/

/-- The literal bound to getAsACreateObjectParameter is, character for
character, the literal bound to getLinkPath. -/
theorem getAsACreateObjectParameter_doc_eq_getLinkPath_doc :
    getAsACreateObjectParameter = getLinkPath := by
  decide
